import Mathlib

/-!
Shallow embedding of the bootstrap-and-poll workflow of
`rubrik_cdm/rubrik_cdm.py` (class `Bootstrap`): the constructor's address
resolution (`Bootstrap.__init__`, lines 330-407), the orchestration routine
`Bootstrap.setup_cluster` (lines 409-580) and the poller `Bootstrap.status`
(lines 582-610).

Python dictionaries are embedded as association lists in insertion order;
dynamically typed arguments are embedded as small sum types recording the
shapes the code distinguishes (`None`, wrong type, well typed).  HTTP calls
and name resolution are oracles supplied as function-valued parameters, so a
run of the model is a pure function of the argument vector and the oracle
environment.  Loops that the source bounds only through its counters are run
on an explicit fuel; a distinguished `modelOutOfFuel` outcome marks the
artificial cutoff, and every theorem below supplies enough fuel for it to be
unreachable.
-/

namespace RubrikCdm

/-- Python `needle in hay` on strings: `sub` occurs as a contiguous substring. -/
def containsSub (needle : List Char) : List Char → Bool
  | [] => needle.isEmpty
  | c :: cs => needle.isPrefixOf (c :: cs) || containsSub needle cs

/-- Substring containment on `String`, the model of Python's `in` operator. -/
def strContains (hay needle : String) : Bool := containsSub needle.data hay.data

/-- A Python argument expected to be a `dict` mapping strings to strings:
`None`, a value of some other type, or an actual dict (association list in
insertion order). -/
inductive PyDictArg where
  | pyNone
  | notADict
  | dict (entries : List (String × String))
deriving DecidableEq

/-- Python `isinstance(x, dict)`. -/
def PyDictArg.isDict : PyDictArg → Bool
  | .dict _ => true
  | _ => false

/-- The entries of a dict argument (empty for the non-dict shapes; only ever
read behind an `isDict` test, mirroring the source). -/
def PyDictArg.entries : PyDictArg → List (String × String)
  | .dict l => l
  | _ => []

/-- A Python argument expected to be a list of strings: `None`, a value of
some other type, or an actual list. -/
inductive PyListArg where
  | pyNone
  | notAList
  | list (items : List String)
deriving DecidableEq

/-- Digit-string accumulator: `some` of the value when every character is a
decimal digit, else `none`. -/
def parseDigitsAux : List Char → ℕ → Option ℕ
  | [], acc => some acc
  | c :: cs, acc => if c.isDigit then parseDigitsAux cs (acc * 10 + (c.toNat - 48)) else none

/-- Model of Python `float(s)` on the non-negative digits-and-dot strings the
version check feeds it (`"5.0"`, `"4.9"`, `"10."`, ...): digits with at most
one decimal point and at least one digit parse to the exact rational value;
anything else is `none`, the model of `ValueError`.  For such inputs the IEEE
double produced by `float` orders against `5.0` exactly as the rational does,
so the `< 5.0` branch below is faithful. -/
def pyFloat (s : String) : Option ℚ :=
  match s.data.splitOn '.' with
  | [ip] => if ip.isEmpty then none else (parseDigitsAux ip 0).map (fun n => (n : ℚ))
  | [ip, fp] =>
    if ip.isEmpty && fp.isEmpty then none
    else
      match parseDigitsAux ip 0, parseDigitsAux fp 0 with
      | some n, some f => some (mkRat (n * 10 ^ fp.length + f) (10 ^ fp.length))
      | _, _ => none
  | _ => none

/-- Python `float(version[:3])` (rubrik_cdm.py line 483): parse the 3-character
prefix of the reported version string. -/
def pyFloat3 (s : String) : Option ℚ := pyFloat ⟨s.data.take 3⟩

/-- One `managementIpConfig` / `ipmiIpConfig` / `dataIpConfig` record, keys in
the order the source assigns them (lines 499-504, 511-516, 523-528). -/
structure IpConfig where
  netmask : String
  gateway : String
  address : String
  vlan : Option Int
deriving DecidableEq

/-- The per-node record under `bootstrap_config["nodeConfigs"]`. -/
structure NodeEntry where
  managementIpConfig : IpConfig
  ipmiIpConfig : Option IpConfig
  dataIpConfig : Option IpConfig
deriving DecidableEq

/-- One `{"server": name}` record of the `ntpServerConfigs` list (line 488). -/
structure NtpServerConfig where
  server : String
deriving DecidableEq

/-- The version-dependent NTP portion of the bootstrap document: the flat
`ntpServers` list for versions below 5.0, the `ntpServerConfigs` record list
otherwise (lines 483-488). -/
inductive NtpPayload where
  | ntpServers (servers : List String)
  | ntpServerConfigs (configs : List NtpServerConfig)
deriving DecidableEq

/-- The `adminUserInfo` record (lines 490-493). -/
structure AdminUserInfo where
  password : String
  emailAddress : String
  id : String
deriving DecidableEq

/-- The assembled `bootstrap_config` document POSTed to
`/internal/cluster/me/bootstrap` (lines 477-528). -/
structure BootstrapConfig where
  enableSoftwareEncryptionAtRest : Bool
  name : String
  dnsNameservers : List String
  dnsSearchDomains : List String
  ntp : NtpPayload
  adminUserInfo : AdminUserInfo
  nodeConfigs : List (String × NodeEntry)
deriving DecidableEq

/-- The decoded response of a successful bootstrap POST; the source reads its
`id` field (line 563). -/
structure PostResponse where
  id : String
deriving DecidableEq

/-- A decoded bootstrap status document; the source reads `status` and
`message` (lines 570-575). -/
structure StatusDoc where
  status : String
  message : String
  id : String
deriving DecidableEq

/-- The argument vector of `setup_cluster` (line 409), in source order. -/
structure SetupArgs where
  cluster_name : String
  admin_email : String
  admin_password : String
  management_gateway : String
  management_subnet_mask : String
  node_config : PyDictArg
  enable_encryption : Bool
  dns_search_domains : PyListArg
  dns_nameservers : PyListArg
  ntp_servers : PyListArg
  wait_for_completion : Bool
  management_vlan : Option Int
  ipmi_gateway : Option String
  ipmi_subnet_mask : Option String
  ipmi_vlan : Option Int
  node_ipmi_ips : PyDictArg
  data_gateway : Option String
  data_subnet_mask : Option String
  data_vlan : Option Int
  node_data_ips : PyDictArg
deriving DecidableEq

/-- Exception message of the `node_config` validation (lines 447-449). -/
def nodeConfigMsg : String :=
  "You must provide a valid dictionary for \"node_config\" holding node names and management IPs."

/-- Exception message for a non-list `dns_search_domains` (line 455). -/
def dnsSearchMsg : String := "You must provide a valid list for \"dns_search_domains\"."

/-- Exception message for a non-list `dns_nameservers` (line 461). -/
def dnsNameserversMsg : String := "You must provide a valid list for \"dns_nameservers\"."

/-- Exception message for a non-list `ntp_servers` (line 467). -/
def ntpServersMsg : String := "You must provide a valid list for \"ntp_servers\"."

/-- Exception message for a stray node name in the IPMI map (line 510). -/
def ipmiStrayMsg : String := "Non-existent node name specified in IPMI addresses."

/-- Exception message for a stray node name in the data map (line 522). -/
def dataStrayMsg : String := "Non-existent node name specified in DATA addresses."

/-- Substring by which the source recognises a connection-refused transport
error (line 547). -/
def refusedNeedle : String :=
  "Failed to establish a new connection: [Errno 111] Connection refused"

/-- Substring by which the source recognises an already-bootstrapped response
(line 553). -/
def alreadyNeedle : String := "Cannot bootstrap from an already bootstrapped node"

/-- The benign string returned for an already-bootstrapped cluster (line 554). -/
def benignMsg : String := "No change required. The Rubrik cluster is already bootstrapped."

/-- Message of the `APICallException` raised when the retry budget is spent
(lines 559-561). -/
def exhaustMsg : String := "Unable to establish a connection to the Rubrik cluster."

/-- The uncaught `IndexError` from `list(node_config.values())[0]` on an empty
dict (line 533). -/
def indexErrMsg : String := "IndexError: list index out of range"

/-- The uncaught `ValueError` from `float()` on an unparsable version prefix
(line 483). -/
def valueErrMsg : String := "ValueError: could not convert string to float"

/-- Parameter validation performed before any network call (lines 447-467):
`node_config` must be a dict, the three optional list arguments must be lists
when supplied.  Returns the message of the first failing check. -/
def preCheck (a : SetupArgs) : Option String :=
  match a.node_config with
  | .pyNone => some nodeConfigMsg
  | .notADict => some nodeConfigMsg
  | .dict _ =>
    match a.dns_search_domains with
    | .notAList => some dnsSearchMsg
    | _ =>
      match a.dns_nameservers with
      | .notAList => some dnsNameserversMsg
      | _ =>
        match a.ntp_servers with
        | .notAList => some ntpServersMsg
        | _ => none

/-- The `dns_search_domains` value after defaulting (`[]`, lines 451-452). -/
def resolvedDnsSearchDomains (a : SetupArgs) : List String :=
  match a.dns_search_domains with
  | .list xs => xs
  | _ => []

/-- The `dns_nameservers` value after defaulting (`['8.8.8.8']`, lines 457-458). -/
def resolvedDnsNameservers (a : SetupArgs) : List String :=
  match a.dns_nameservers with
  | .list xs => xs
  | _ => ["8.8.8.8"]

/-- The `ntp_servers` value after defaulting (`['pool.ntp.org']`, lines 463-464). -/
def resolvedNtpServers (a : SetupArgs) : List String :=
  match a.ntp_servers with
  | .list xs => xs
  | _ => ["pool.ntp.org"]

/-- Line 472: the IPMI map is applied only when gateway, subnet mask and a
dict-typed `node_ipmi_ips` are all present. -/
def usingIpmiConfig (a : SetupArgs) : Bool :=
  a.ipmi_gateway.isSome && a.ipmi_subnet_mask.isSome && a.node_ipmi_ips.isDict

/-- Line 474: the data map is applied only when gateway, subnet mask and a
dict-typed `node_data_ips` are all present. -/
def usingDataConfig (a : SetupArgs) : Bool :=
  a.data_gateway.isSome && a.data_subnet_mask.isSome && a.node_data_ips.isDict

/-- The `nodeConfigs` dict after the management loop (lines 495-504): one
entry per `node_config` item, `ipmiIpConfig` and `dataIpConfig` unset. -/
def mgmtNodeConfigs (a : SetupArgs) : List (String × NodeEntry) :=
  a.node_config.entries.map fun p =>
    (p.1, ⟨⟨a.management_subnet_mask, a.management_gateway, p.2, a.management_vlan⟩, none, none⟩)

/-- Store an `ipmiIpConfig` on a node entry (lines 511-516). -/
def setIpmi (e : NodeEntry) (c : IpConfig) : NodeEntry :=
  ⟨e.managementIpConfig, some c, e.dataIpConfig⟩

/-- Store a `dataIpConfig` on a node entry (lines 523-528). -/
def setData (e : NodeEntry) (c : IpConfig) : NodeEntry :=
  ⟨e.managementIpConfig, e.ipmiIpConfig, some c⟩

/-- In-place update of the named key of the `nodeConfigs` dict. -/
def updateNode (cfgs : List (String × NodeEntry)) (name : String) (f : NodeEntry → NodeEntry) :
    List (String × NodeEntry) :=
  cfgs.map fun p => if p.1 = name then (p.1, f p.2) else p

/-- One of the two optional-address loops (lines 506-516 and 518-528): walk
the map in order; a node name absent from `nodeConfigs` raises
`InvalidParameterException errMsg`, a present one gets the corresponding IP
config stored via `setter`. -/
def applyIpConfigs (setter : NodeEntry → IpConfig → NodeEntry) (errMsg : String)
    (netmask gateway : String) (vlan : Option Int) :
    List (String × String) → List (String × NodeEntry) → Except String (List (String × NodeEntry))
  | [], cfgs => .ok cfgs
  | (name, ip) :: rest, cfgs =>
    if (cfgs.lookup name).isSome then
      applyIpConfigs setter errMsg netmask gateway vlan rest
        (updateNode cfgs name (fun e => setter e ⟨netmask, gateway, ip, vlan⟩))
    else .error errMsg

/-- Observable outcome of a `setup_cluster` run: the Python exception raised
or the value returned. -/
inductive SetupOutcome where
  | paramError (msg : String)
  | rubrikError (msg : String)
  | apiCallError (msg : String)
  | pyError (msg : String)
  | benign (msg : String)
  | submission (resp : PostResponse)
  | finalStatus (doc : StatusDoc)
  | modelOutOfFuel
deriving DecidableEq

/-- The version-gated NTP schema choice (lines 483-488): the flat list below
5.0, the record list from 5.0 on. -/
def ntpChoice (a : SetupArgs) (q : ℚ) : NtpPayload :=
  if q < 5 then .ntpServers (resolvedNtpServers a)
  else .ntpServerConfigs ((resolvedNtpServers a).map fun s => ⟨s⟩)

/-- The IPMI loop (lines 506-516), a no-op unless `usingIpmiConfig`. -/
def ipmiPass (a : SetupArgs) (cfgs : List (String × NodeEntry)) :
    Except String (List (String × NodeEntry)) :=
  if usingIpmiConfig a then
    applyIpConfigs setIpmi ipmiStrayMsg (a.ipmi_subnet_mask.getD "") (a.ipmi_gateway.getD "")
      a.ipmi_vlan a.node_ipmi_ips.entries cfgs
  else .ok cfgs

/-- The data loop (lines 518-528), a no-op unless `usingDataConfig`. -/
def dataPass (a : SetupArgs) (cfgs : List (String × NodeEntry)) :
    Except String (List (String × NodeEntry)) :=
  if usingDataConfig a then
    applyIpConfigs setData dataStrayMsg (a.data_subnet_mask.getD "") (a.data_gateway.getD "")
      a.data_vlan a.node_data_ips.entries cfgs
  else .ok cfgs

/-- Document assembly once the version string is in hand (lines 483-528):
parse the 3-character version prefix, pick the NTP schema by `< 5.0`, build
`nodeConfigs` from the management map, then run the IPMI and data loops. -/
def buildConfig (a : SetupArgs) (version : String) : Except SetupOutcome BootstrapConfig :=
  match pyFloat3 version with
  | none => .error (.pyError valueErrMsg)
  | some q =>
    match ipmiPass a (mgmtNodeConfigs a) with
    | .error m => .error (.paramError m)
    | .ok cfgs1 =>
      match dataPass a cfgs1 with
      | .error m => .error (.paramError m)
      | .ok cfgs2 =>
        .ok ⟨a.enable_encryption, a.cluster_name, resolvedDnsNameservers a,
          resolvedDnsSearchDomains a, ntpChoice a q, ⟨a.admin_password, a.admin_email, "admin"⟩,
          cfgs2⟩

/-- Line 533, `list(node_config.values())[0]`: the first management IP, the
fallback address for the poller; `none` models the `IndexError` on an empty
dict. -/
def firstNodeIp (a : SetupArgs) : Option String :=
  (a.node_config.entries.map Prod.snd).head?

/-- How the submission loop ended. -/
inductive LoopResult where
  | success (resp : PostResponse)
  | alreadyBootstrapped
  | fatalOther (msg : String)
  | exhausted
  | outOfFuel
deriving DecidableEq

/-- A finished submission loop: its result, the number of POST attempts made
and the number of 30-second backoff sleeps taken. -/
structure LoopRun where
  result : LoopResult
  posts : ℕ
  sleeps : ℕ
deriving DecidableEq

/-- The `while True` submission loop (lines 530-561), entered with
`number_of_attempts = attempts`.  `post n` is the outcome of the n-th POST
(1-based): a decoded response or the text of the `APICallException`.  A
refused attempt sleeps, increments the counter and gives up when the counter
reaches 12; an already-bootstrapped error returns; any other error is fatal.
The fuel only caps the model; 12 units make the cutoff unreachable from
`attempts = 1`. -/
def bootstrapGo (post : ℕ → Except String PostResponse) : ℕ → ℕ → LoopRun
  | 0, attempts => ⟨.outOfFuel, attempts - 1, attempts - 1⟩
  | fuel + 1, attempts =>
    match post attempts with
    | .ok resp => ⟨.success resp, attempts, attempts - 1⟩
    | .error msg =>
      if strContains msg refusedNeedle then
        if attempts + 1 = 12 then ⟨.exhausted, attempts, attempts⟩
        else bootstrapGo post fuel (attempts + 1)
      else if strContains msg alreadyNeedle then ⟨.alreadyBootstrapped, attempts, attempts - 1⟩
      else ⟨.fatalOther msg, attempts, attempts - 1⟩

/-- The submission loop as entered by the source: `number_of_attempts = 1`
(line 530). -/
def bootstrapLoop (post : ℕ → Except String PostResponse) : LoopRun :=
  bootstrapGo post 12 1

deriving instance DecidableEq for Except

/-- A finished `status` call: its result and the endpoints fetched through
the primary and the fallback client. -/
structure StatusRun where
  result : Except String StatusDoc
  primaryCalls : List String
  fallbackCalls : List String
deriving DecidableEq

/-- The bootstrap status endpoint for a request id (lines 596-597). -/
def statusEndpoint (request_id : String) : String :=
  "/cluster/me/bootstrap?request_id=" ++ request_id

/-- `Bootstrap.status` (lines 582-610): GET the status endpoint through the
primary client; on an `APICallException` retry the same GET once through a
secondary client bound to the fallback IPv4 address; a failure of the retry
propagates.  `prim` and `fall` map an endpoint to the decoded document or the
exception text of the respective client. -/
def status (prim fall : String → Except String StatusDoc) (request_id : String) : StatusRun :=
  match prim (statusEndpoint request_id) with
  | .ok d => ⟨.ok d, [statusEndpoint request_id], []⟩
  | .error _ =>
    match fall (statusEndpoint request_id) with
    | .ok d => ⟨.ok d, [statusEndpoint request_id], [statusEndpoint request_id]⟩
    | .error e => ⟨.error e, [statusEndpoint request_id], [statusEndpoint request_id]⟩

/-- The oracle environment of a `setup_cluster` run: the version GET, the
POST attempts, and per poll index the primary and fallback status clients. -/
structure SetupEnv where
  versionResult : Except String String
  post : ℕ → Except String PostResponse
  statPrim : ℕ → String → Except String StatusDoc
  statFall : ℕ → String → Except String StatusDoc

/-- A finished polling loop: its result, the number of `status` calls and the
number of 30-second polling sleeps. -/
structure PollRun where
  result : SetupOutcome
  statusCalls : ℕ
  sleeps : ℕ
deriving DecidableEq

/-- The wait-for-completion loop (lines 567-578), at poll index `i` (also the
number of sleeps taken so far): `IN_PROGRESS` sleeps and re-polls, `FAILURE`
or `FAILED` raises `RubrikException` with the server message, anything else
is returned; a status call whose fallback also failed propagates its
`APICallException`. -/
def pollGo (env : SetupEnv) (request_id : String) : ℕ → ℕ → PollRun
  | 0, i => ⟨.modelOutOfFuel, i, i⟩
  | fuel + 1, i =>
    match (status (env.statPrim i) (env.statFall i) request_id).result with
    | .error e => ⟨.apiCallError e, i + 1, i⟩
    | .ok doc =>
      if doc.status = "IN_PROGRESS" then pollGo env request_id fuel (i + 1)
      else if doc.status = "FAILURE" ∨ doc.status = "FAILED" then
        ⟨.rubrikError doc.message, i + 1, i⟩
      else ⟨.finalStatus doc, i + 1, i⟩

/-- The polling loop from its first iteration. -/
def pollLoop (env : SetupEnv) (request_id : String) (fuel : ℕ) : PollRun :=
  pollGo env request_id fuel 0

/-- A finished `setup_cluster` run: outcome, network-call and sleep counts,
and the assembled bootstrap document when assembly completed. -/
structure SetupRun where
  result : SetupOutcome
  versionGets : ℕ
  posts : ℕ
  retrySleeps : ℕ
  statusCalls : ℕ
  pollSleeps : ℕ
  config : Option BootstrapConfig
deriving DecidableEq

/-- The tail of `setup_cluster` from the submission loop on (lines 530-580),
with the document already assembled. -/
def submitPhase (a : SetupArgs) (env : SetupEnv) (pollFuel : ℕ) (cfg : BootstrapConfig) :
    SetupRun :=
  match (bootstrapLoop env.post).result with
  | .success resp =>
    if a.wait_for_completion then
      ⟨(pollLoop env resp.id pollFuel).result, 1, (bootstrapLoop env.post).posts,
        (bootstrapLoop env.post).sleeps, (pollLoop env resp.id pollFuel).statusCalls,
        (pollLoop env resp.id pollFuel).sleeps, some cfg⟩
    else
      ⟨.submission resp, 1, (bootstrapLoop env.post).posts, (bootstrapLoop env.post).sleeps,
        0, 0, some cfg⟩
  | .alreadyBootstrapped =>
    ⟨.benign benignMsg, 1, (bootstrapLoop env.post).posts, (bootstrapLoop env.post).sleeps,
      0, 0, some cfg⟩
  | .fatalOther m =>
    ⟨.rubrikError m, 1, (bootstrapLoop env.post).posts, (bootstrapLoop env.post).sleeps,
      0, 0, some cfg⟩
  | .exhausted =>
    ⟨.apiCallError exhaustMsg, 1, (bootstrapLoop env.post).posts,
      (bootstrapLoop env.post).sleeps, 0, 0, some cfg⟩
  | .outOfFuel =>
    ⟨.modelOutOfFuel, 1, (bootstrapLoop env.post).posts, (bootstrapLoop env.post).sleeps,
      0, 0, some cfg⟩

/-- `Bootstrap.setup_cluster` (lines 409-580): validate parameters, GET the
cluster version, assemble the bootstrap document, extract the first node IP,
then submit inside the retry loop and optionally poll to completion. -/
def setup_cluster (a : SetupArgs) (env : SetupEnv) (pollFuel : ℕ) : SetupRun :=
  match preCheck a with
  | some msg => ⟨.paramError msg, 0, 0, 0, 0, 0, none⟩
  | none =>
    match env.versionResult with
    | .error e => ⟨.apiCallError e, 1, 0, 0, 0, 0, none⟩
    | .ok v =>
      match buildConfig a v with
      | .error out => ⟨out, 1, 0, 0, 0, 0, none⟩
      | .ok cfg =>
        match firstNodeIp a with
        | none => ⟨.pyError indexErrMsg, 1, 0, 0, 0, 0, some cfg⟩
        | some _ => submitPhase a env pollFuel cfg

/-- The dynamically typed `self.ipv6_scope`: the constructor stores either
the string `str(ip_info[0][4][3])` or an interface index integer in it
(lines 361-377); Python's `==` across the two types is always false. -/
inductive PyScope where
  | str (s : String)
  | int (n : ℕ)
deriving DecidableEq

/-- The connection-relevant state a constructed `Bootstrap` instance holds:
`self.node_ip`, `self.ipv6_addr`, and `self.ipv6_scope` when set. -/
structure InitState where
  node_ip : String
  ipv6_addr : String
  ipv6_scope : Option PyScope
deriving DecidableEq

/-- How `Bootstrap.__init__` ended: a constructed instance, a `sys.exit`, or
the `RubrikException` for an unresolvable address. -/
inductive InitOutcome where
  | ok (st : InitState)
  | sysExit (msg : String)
  | rubrikError (msg : String)
deriving DecidableEq

/-- A finished constructor run, recording which resolution calls were made. -/
structure InitRun where
  outcome : InitOutcome
  calledGai6 : Bool
  calledGai4 : Bool
deriving DecidableEq

/-- Oracles of the constructor: `socket.if_nametoindex` (`none` models
`OSError`), `socket.getaddrinfo` on `AF_INET6` giving `(address, scopeid)` of
`ip_info[0][4]` (`error` models `gaierror`), the same on `AF_INET`, and
`socket.if_nameindex()` as an `(index, name)` list. -/
structure ResolverEnv where
  ifNameToIndex : String → Option ℕ
  gai6 : Except Unit (String × ℕ)
  gai4 : Except Unit Unit
  ifNameIndex : List (ℕ × String)

/-- `sys.exit` message for an invalid interface argument (line 343). -/
def invalidIfMsg : String := "Error: Invalid interface supplied"

/-- `sys.exit` message of the (dead, see `C5`) no-usable-scope branch
(lines 379-380). -/
def noScopeMsg : String := "Error: Unable to find a usable IPv6 link local scope"

/-- `RubrikException` message when neither family resolves (lines 398-400). -/
def couldNotResolveMsg : String :=
  "Error: Could not resolve address for cluster, or invalid IP/address supplied"

/-- The resolution part of `Bootstrap.__init__` (lines 345-400), after the
interface argument was validated (`ifIdx` is its index when supplied).  An
IPv6 result carrying `::ffff` is discarded and the instance proceeds as IPv4
with `node_ip` unchanged; a genuine IPv6 result determines a scope — the
user interface's index, else `str(scopeid)`, with a scan of non-loopback
interfaces when that string is `"0"` — and brackets the address; a
`gaierror` falls through to IPv4 resolution; two failures raise. -/
def bootstrapInitResolve (node_ip : String) (ifIdx : Option ℕ) (env : ResolverEnv) : InitRun :=
  match env.gai6 with
  | .ok (addr, scope) =>
    if strContains addr "::ffff" then ⟨.ok ⟨node_ip, "", none⟩, true, false⟩
    else
      match ifIdx with
      | some idx =>
        ⟨.ok ⟨"[" ++ addr ++ "%" ++ toString idx ++ "]", addr, some (.int idx)⟩, true, false⟩
      | none =>
        if toString scope = "0" then
          match env.ifNameIndex.find? (fun p => !(strContains p.2 "lo")) with
          | some p =>
            if p.1 = 0 then ⟨.sysExit noScopeMsg, true, false⟩
            else
              ⟨.ok ⟨"[" ++ addr ++ "%" ++ toString p.1 ++ "]", addr, some (.int p.1)⟩,
                true, false⟩
          | none =>
            ⟨.ok ⟨"[" ++ addr ++ "%" ++ "0" ++ "]", addr, some (.str "0")⟩, true, false⟩
        else
          ⟨.ok ⟨"[" ++ addr ++ "%" ++ toString scope ++ "]", addr,
            some (.str (toString scope))⟩, true, false⟩
  | .error _ =>
    match env.gai4 with
    | .ok _ => ⟨.ok ⟨node_ip, "", none⟩, true, true⟩
    | .error _ => ⟨.rubrikError couldNotResolveMsg, true, true⟩

/-- `Bootstrap.__init__` (lines 330-400): validate the optional interface
argument (an unknown name is a fatal `sys.exit`), then resolve. -/
def bootstrapInit (node_ip : String) (interface : Option String) (env : ResolverEnv) : InitRun :=
  match interface with
  | some ifn =>
    match env.ifNameToIndex ifn with
    | none => ⟨.sysExit invalidIfMsg, false, false⟩
    | some idx => bootstrapInitResolve node_ip (some idx) env
  | none => bootstrapInitResolve node_ip none env
/-! Helper lemmas about the submission loop. -/

/-- An option with a false `isSome` is `none`. -/
theorem isSome_false_eq_none {α : Type} {o : Option α} (h : o.isSome = false) : o = none := by
  cases o with
  | none => rfl
  | some x => simp at h

/-- Whatever the POST oracle does, a loop entered with a counter in `[1, 11]`
makes at most 11 POST attempts. -/
theorem bootstrapGo_posts_le (post : ℕ → Except String PostResponse) :
    ∀ (fuel attempts : ℕ), 1 ≤ attempts → attempts ≤ 11 →
    (bootstrapGo post fuel attempts).posts ≤ 11 := by
  intro fuel
  induction fuel with
  | zero => intro attempts _ h11; simp [bootstrapGo]; omega
  | succ f ih =>
    intro attempts h1 h11
    simp only [bootstrapGo]
    split
    · simpa using h11
    · split
      · split
        · simpa using h11
        · rename_i h12
          exact ih (attempts + 1) (by omega) (by omega)
      · split
        · simpa using h11
        · simpa using h11

/-- Skipping `k` consecutive connection-refused attempts advances the loop
counter by `k` while consuming `k` units of fuel, provided the counter stays
below the cutoff. -/
theorem bootstrapGo_skip (post : ℕ → Except String PostResponse) :
    ∀ (k fuel a : ℕ), 1 ≤ a → a + k ≤ 11 →
    (∀ j, a ≤ j → j < a + k → ∃ m, post j = .error m ∧ strContains m refusedNeedle = true) →
    bootstrapGo post (fuel + k) a = bootstrapGo post fuel (a + k) := by
  intro k
  induction k with
  | zero => intro fuel a _ _ _; rfl
  | succ n ih =>
    intro fuel a h1 hle href
    obtain ⟨m, hm, hmr⟩ := href a le_rfl (by omega)
    have hstep : bootstrapGo post (fuel + (n + 1)) a = bootstrapGo post (fuel + n) (a + 1) := by
      have hf : fuel + (n + 1) = (fuel + n) + 1 := by omega
      rw [hf]
      simp only [bootstrapGo, hm]
      rw [if_pos hmr, if_neg (show ¬ a + 1 = 12 by omega)]
    rw [hstep, ih fuel (a + 1) (by omega) (by omega)
      (fun j hj1 hj2 => href j (by omega) (by omega))]
    congr 1
    omega

/-- Under `k - 1` initial refusals the loop as entered by the source reaches
attempt `k` with `13 - k` units of fuel left. -/
theorem bootstrapLoop_eq_go (post : ℕ → Except String PostResponse) (k : ℕ)
    (h1 : 1 ≤ k) (h11 : k ≤ 11)
    (href : ∀ j, 1 ≤ j → j < k → ∃ m, post j = .error m ∧ strContains m refusedNeedle = true) :
    bootstrapLoop post = bootstrapGo post (13 - k) k := by
  unfold bootstrapLoop
  have h12 : 12 = (13 - k) + (k - 1) := by omega
  rw [h12, bootstrapGo_skip post (k - 1) (13 - k) 1 le_rfl (by omega)
    (fun j hj1 hj2 => href j hj1 (by omega))]
  congr 1
  omega

/-! Helper lemmas about the polling loop. -/

/-- Skipping `n` consecutive `IN_PROGRESS` polls advances the poll index by
`n` while consuming `n` units of fuel. -/
theorem pollGo_skip (env : SetupEnv) (rid : String) :
    ∀ (n f i : ℕ),
    (∀ j, i ≤ j → j < i + n →
      ∃ dj, (status (env.statPrim j) (env.statFall j) rid).result = .ok dj ∧
        dj.status = "IN_PROGRESS") →
    pollGo env rid (f + n) i = pollGo env rid f (i + n) := by
  intro n
  induction n with
  | zero => intro f i _; rfl
  | succ m ih =>
    intro f i hin
    obtain ⟨d, hd, hds⟩ := hin i le_rfl (by omega)
    have hstep : pollGo env rid (f + (m + 1)) i = pollGo env rid (f + m) (i + 1) := by
      have hf : f + (m + 1) = (f + m) + 1 := by omega
      rw [hf]
      simp only [pollGo, hd]
      rw [if_pos hds]
    rw [hstep, ih f (i + 1) (fun j hj1 hj2 => hin j (by omega) (by omega))]
    congr 1
    omega

/-! Helper lemmas about the nodeConfigs dict and the optional-address loops. -/

/-- Mapping entry values keeps key membership: `nodeConfigs` built from
`node_config` has exactly its keys. -/
theorem map_lookup_isSome {β γ : Type} (g : String × β → γ) (k : String) :
    ∀ l : List (String × β),
    ((l.map fun p => (p.1, g p)).lookup k).isSome = ((l.lookup k).isSome) := by
  intro l
  induction l with
  | nil => rfl
  | cons p rest ih =>
    obtain ⟨p1, p2⟩ := p
    simp only [List.map_cons]
    cases hk : k == p1 <;> simp [List.lookup, hk, ih]

/-- The in-place update of a dict is a value-only map. -/
theorem updateNode_eq_map (cfgs : List (String × NodeEntry)) (name : String)
    (f : NodeEntry → NodeEntry) :
    updateNode cfgs name f = cfgs.map fun p => (p.1, if p.1 = name then f p.2 else p.2) := by
  unfold updateNode
  congr 1
  funext p
  by_cases h : p.1 = name
  · rw [if_pos h, if_pos h]
  · rw [if_neg h, if_neg h]

/-- An in-place update of a dict leaves key membership unchanged. -/
theorem updateNode_lookup_isSome (name : String) (f : NodeEntry → NodeEntry) (k : String)
    (cfgs : List (String × NodeEntry)) :
    ((updateNode cfgs name f).lookup k).isSome = ((cfgs.lookup k).isSome) := by
  rw [updateNode_eq_map]
  exact map_lookup_isSome _ k cfgs

/-- An optional-address map holding a name with no `nodeConfigs` entry makes
the corresponding loop raise its parameter error. -/
theorem applyIpConfigs_stray (setter : NodeEntry → IpConfig → NodeEntry) (errMsg : String)
    (nm gw : String) (vl : Option Int) :
    ∀ (entries : List (String × String)) (cfgs : List (String × NodeEntry)),
    (∃ p ∈ entries, cfgs.lookup p.1 = none) →
    applyIpConfigs setter errMsg nm gw vl entries cfgs = .error errMsg := by
  intro entries
  induction entries with
  | nil =>
    rintro cfgs ⟨p, hp, -⟩
    simp at hp
  | cons e rest ih =>
    rintro cfgs ⟨p, hp, hnone⟩
    obtain ⟨e1, e2⟩ := e
    simp only [applyIpConfigs]
    by_cases h : (cfgs.lookup e1).isSome
    · rw [if_pos h]
      apply ih
      rcases List.mem_cons.mp hp with heq | hmem
      · exfalso
        rw [heq] at hnone
        simp only at hnone
        rw [hnone] at h
        simp at h
      · refine ⟨p, hmem, ?_⟩
        have hs := updateNode_lookup_isSome e1 (fun e => setter e ⟨nm, gw, e2, vl⟩) p.1 cfgs
        rw [hnone] at hs
        exact isSome_false_eq_none (by simpa using hs)
    · rw [if_neg h]

/-- When every name of an optional-address map is a `nodeConfigs` key the
loop succeeds and leaves key membership unchanged. -/
theorem applyIpConfigs_ok (setter : NodeEntry → IpConfig → NodeEntry) (errMsg : String)
    (nm gw : String) (vl : Option Int) :
    ∀ (entries : List (String × String)) (cfgs : List (String × NodeEntry)),
    (∀ p ∈ entries, (cfgs.lookup p.1).isSome) →
    ∃ out, applyIpConfigs setter errMsg nm gw vl entries cfgs = .ok out ∧
      ∀ k, (out.lookup k).isSome = ((cfgs.lookup k).isSome) := by
  intro entries
  induction entries with
  | nil => exact fun cfgs _ => ⟨cfgs, rfl, fun k => rfl⟩
  | cons e rest ih =>
    intro cfgs hall
    obtain ⟨e1, e2⟩ := e
    have h1 : (cfgs.lookup e1).isSome := hall (e1, e2) (List.mem_cons_self _ _)
    obtain ⟨out, hout, hkeys⟩ :=
      ih (updateNode cfgs e1 (fun e => setter e ⟨nm, gw, e2, vl⟩))
        (fun p hp => by
          rw [updateNode_lookup_isSome]
          exact hall p (List.mem_cons_of_mem _ hp))
    refine ⟨out, ?_, fun k => (hkeys k).trans (updateNode_lookup_isSome _ _ _ _)⟩
    simp only [applyIpConfigs]
    rw [if_pos h1]
    exact hout

/-- A per-entry invariant respected by the setter and trivially by untouched
entries is preserved by an in-place update. -/
theorem updateNode_preserves (P : NodeEntry → Prop) (name : String) (f : NodeEntry → NodeEntry)
    (hf : ∀ e, P e → P (f e)) (cfgs : List (String × NodeEntry))
    (h : ∀ p ∈ cfgs, P p.2) :
    ∀ p ∈ updateNode cfgs name f, P p.2 := by
  intro p hp
  simp only [updateNode, List.mem_map] at hp
  obtain ⟨q, hq, hqe⟩ := hp
  by_cases h1 : q.1 = name
  · rw [if_pos h1] at hqe
    rw [← hqe]
    exact hf q.2 (h q hq)
  · rw [if_neg h1] at hqe
    rw [← hqe]
    exact h q hq

/-- A per-entry invariant respected by the setter is preserved by a whole
successful optional-address loop. -/
theorem applyIpConfigs_preserves (P : NodeEntry → Prop)
    (setter : NodeEntry → IpConfig → NodeEntry) (errMsg : String)
    (nm gw : String) (vl : Option Int)
    (hset : ∀ e c, P e → P (setter e c)) :
    ∀ (entries : List (String × String)) (cfgs out : List (String × NodeEntry)),
    applyIpConfigs setter errMsg nm gw vl entries cfgs = .ok out →
    (∀ p ∈ cfgs, P p.2) → ∀ p ∈ out, P p.2 := by
  intro entries
  induction entries with
  | nil =>
    intro cfgs out hok hall
    simp only [applyIpConfigs] at hok
    cases hok
    exact hall
  | cons e rest ih =>
    intro cfgs out hok hall
    obtain ⟨e1, e2⟩ := e
    simp only [applyIpConfigs] at hok
    by_cases h : (cfgs.lookup e1).isSome
    · rw [if_pos h] at hok
      exact ih _ out hok
        (updateNode_preserves P e1 _ (fun e he => hset e _ he) cfgs hall)
    · rw [if_neg h] at hok
      exact absurd hok (by simp)

/-- Every entry of the freshly built management dict has no `ipmiIpConfig`
and no `dataIpConfig`. -/
theorem mgmtNodeConfigs_fresh (a : SetupArgs) :
    ∀ p ∈ mgmtNodeConfigs a, p.2.ipmiIpConfig = none ∧ p.2.dataIpConfig = none := by
  intro p hp
  simp only [mgmtNodeConfigs, List.mem_map] at hp
  obtain ⟨q, -, hqe⟩ := hp
  rw [← hqe]
  exact ⟨rfl, rfl⟩

/-! Helper lemmas about the glued `setup_cluster` run. -/

/-- Validation passes whenever `node_config` is a dict and the three list
arguments are not of a wrong type. -/
theorem preCheck_none_of (a : SetupArgs) (ncfg : List (String × String))
    (hnc : a.node_config = .dict ncfg)
    (h1 : a.dns_search_domains ≠ .notAList) (h2 : a.dns_nameservers ≠ .notAList)
    (h3 : a.ntp_servers ≠ .notAList) : preCheck a = none := by
  unfold preCheck
  rw [hnc]
  cases hd1 : a.dns_search_domains
  case notAList => exact absurd hd1 h1
  all_goals
    cases hd2 : a.dns_nameservers
  case pyNone.notAList => exact absurd hd2 h2
  case list.notAList => exact absurd hd2 h2
  all_goals
    cases hd3 : a.ntp_servers
  all_goals first
    | rfl
    | exact absurd hd3 h3

/-- The submission phase records the assembled document. -/
theorem submitPhase_config (a : SetupArgs) (env : SetupEnv) (pollFuel : ℕ)
    (cfg : BootstrapConfig) : (submitPhase a env pollFuel cfg).config = some cfg := by
  unfold submitPhase
  cases h : (bootstrapLoop env.post).result
  case success => by_cases hw : a.wait_for_completion <;> simp [hw]
  all_goals rfl

/-- The submission phase POSTs at most 11 times. -/
theorem submitPhase_posts_le (a : SetupArgs) (env : SetupEnv) (pollFuel : ℕ)
    (cfg : BootstrapConfig) : (submitPhase a env pollFuel cfg).posts ≤ 11 := by
  have hb : (bootstrapLoop env.post).posts ≤ 11 :=
    bootstrapGo_posts_le env.post 12 1 le_rfl (by omega)
  unfold submitPhase
  cases h : (bootstrapLoop env.post).result
  case success => by_cases hw : a.wait_for_completion <;> simp [hw] <;> exact hb
  all_goals simpa using hb

/-- Once validation, the version GET, assembly and the first-IP extraction
have gone through, a run is its submission phase. -/
theorem setup_cluster_reach (a : SetupArgs) (env : SetupEnv) (pollFuel : ℕ)
    (hpre : preCheck a = none) (v : String) (hv : env.versionResult = .ok v)
    (cfg : BootstrapConfig) (hb : buildConfig a v = .ok cfg)
    (ip0 : String) (hip : firstNodeIp a = some ip0) :
    setup_cluster a env pollFuel = submitPhase a env pollFuel cfg := by
  unfold setup_cluster
  rw [hpre]
  simp only []
  rw [hv]
  simp only []
  rw [hb]
  simp only []
  rw [hip]

/-- A run records an assembled document exactly when validation, the version
GET and assembly succeeded on it. -/
theorem setup_cluster_config_inv (a : SetupArgs) (env : SetupEnv) (pollFuel : ℕ)
    (cfg : BootstrapConfig)
    (h : (setup_cluster a env pollFuel).config = some cfg) :
    ∃ v, env.versionResult = .ok v ∧ buildConfig a v = .ok cfg := by
  unfold setup_cluster at h
  rcases hpre : preCheck a with - | msg
  · rw [hpre] at h
    simp only [] at h
    rcases hv : env.versionResult with e | v
    · rw [hv] at h
      simp at h
    · rw [hv] at h
      simp only [] at h
      rcases hb : buildConfig a v with out | c
      · rw [hb] at h
        simp at h
      · rw [hb] at h
        simp only [] at h
        rcases hip : firstNodeIp a with - | ip0
        · rw [hip] at h
          simp only [] at h
          have hc : c = cfg := by simpa using h
          rw [hc] at hb
          exact ⟨v, rfl, hb⟩
        · rw [hip] at h
          simp only [] at h
          rw [submitPhase_config] at h
          have hc : c = cfg := by simpa using h
          rw [hc] at hb
          exact ⟨v, rfl, hb⟩
  · rw [hpre] at h
    simp at h

/-! Concrete oracle environments used by closed theorems. -/

/-- Resolver oracle: genuine link-local IPv6 with scope id 0, loopback as the
only local interface, IPv4 resolution failing. -/
def c5envLoOnly : ResolverEnv :=
  ⟨fun _ => none, .ok ("fe80::20c:29ff:fe3b:1", 0), .error (), [(1, "lo")]⟩

/-- Resolver oracle: genuine link-local IPv6 with scope id 0 and local
interfaces `lo` and `eth0`. -/
def c5envLoEth : ResolverEnv :=
  ⟨fun _ => none, .ok ("fe80::20c:29ff:fe3b:1", 0), .error (), [(1, "lo"), (2, "eth0")]⟩

/-- C5 (code evidence): with a genuine IPv6 resolution of scope 0, no
interface argument and only loopback interfaces, `Bootstrap.__init__` does
NOT fail: the scan leaves `ipv6_scope` as the string `"0"`, the guard
`self.ipv6_scope == 0` compares a str to an int and is never true, and the
instance is built with connection address `[fe80::20c:29ff:fe3b:1%0]`.  With
interfaces `{lo, eth0}` the scan adopts eth0's index 2, as the claim states. -/
theorem claim5_theorem :
    (bootstrapInit "fe80::20c:29ff:fe3b:1" none c5envLoOnly).outcome =
      .ok ⟨"[fe80::20c:29ff:fe3b:1%0]", "fe80::20c:29ff:fe3b:1", some (.str "0")⟩ ∧
    (bootstrapInit "fe80::20c:29ff:fe3b:1" none c5envLoEth).outcome =
      .ok ⟨"[fe80::20c:29ff:fe3b:1%2]", "fe80::20c:29ff:fe3b:1", some (.int 2)⟩ := by
  decide

/-- Resolver oracle: IPv6 resolution yields an IPv4-mapped address while IPv4
resolution would fail. -/
def c6exEnv : ResolverEnv :=
  ⟨fun _ => none, .ok ("::ffff:10.9.8.7", 0), .error (), []⟩

/-- C6 (counterexample): when the IPv6 resolution returns the IPv4-mapped
address `::ffff:10.9.8.7`, the constructor succeeds with the original input
unchanged WITHOUT falling through to IPv4 resolution: no `AF_INET`
`getaddrinfo` call is made (here it would even have failed), refuting the
claim's "falls through to IPv4 resolution". -/
theorem claim6_counterexample :
    (bootstrapInit "cluster.example.com" none c6exEnv).outcome =
      .ok ⟨"cluster.example.com", "", none⟩ ∧
    (bootstrapInit "cluster.example.com" none c6exEnv).calledGai4 = false := by
  decide

/-- C6 (amended): when IPv6 resolution succeeds with an IPv4-mapped
(`::ffff`) address, the resolved address is discarded and the instance is
configured directly as IPv4 — original input unchanged as the connection
address, empty `ipv6_addr`, no brackets, no scope — and no IPv4 resolution
call is made. -/
theorem claim6_theorem (node_ip : String) (interface : Option String) (env : ResolverEnv)
    (addr : String) (scope : ℕ) (h6 : env.gai6 = .ok (addr, scope))
    (hmap : strContains addr "::ffff" = true)
    (hif : interface = none ∨ ∃ ifn idx, interface = some ifn ∧ env.ifNameToIndex ifn = some idx) :
    (bootstrapInit node_ip interface env).outcome = .ok ⟨node_ip, "", none⟩ ∧
    (bootstrapInit node_ip interface env).calledGai4 = false := by
  rcases hif with rfl | ⟨ifn, idx, rfl, hidx⟩
  · unfold bootstrapInit bootstrapInitResolve
    rw [h6]
    simp only []
    rw [if_pos hmap]
    exact ⟨rfl, rfl⟩
  · unfold bootstrapInit
    simp only []
    rw [hidx]
    simp only []
    unfold bootstrapInitResolve
    rw [h6]
    simp only []
    rw [if_pos hmap]
    exact ⟨rfl, rfl⟩

/-- Resolver oracle for the C6 witness: IPv4-mapped IPv6 answer. -/
def c6wEnv : ResolverEnv :=
  ⟨fun _ => none, .ok ("::ffff:192.168.1.5", 0), .ok (), [(1, "lo"), (2, "eth0")]⟩

/-- C6 witness: the amended theorem at a concrete IPv4-mapped resolution. -/
theorem claim6_witness :
    (bootstrapInit "myhost" none c6wEnv).outcome = .ok ⟨"myhost", "", none⟩ ∧
    (bootstrapInit "myhost" none c6wEnv).calledGai4 = false :=
  claim6_theorem "myhost" none c6wEnv "::ffff:192.168.1.5" 0 rfl (by decide) (Or.inl rfl)

/-- C8: `status` GETs the endpoint of the request id through the primary
client; on success the decoded document is returned unchanged (no
interpretation of its state field) with no fallback call; on a transport
error exactly one retry of the same GET is made through the secondary client
bound to the fallback IPv4 address, whose success is returned unchanged and
whose failure propagates unmodified. -/
theorem claim8_theorem (prim fall : String → Except String StatusDoc) (rid : String) :
    (∀ d, prim (statusEndpoint rid) = .ok d →
      (status prim fall rid).result = .ok d ∧ (status prim fall rid).fallbackCalls = []) ∧
    (∀ e, prim (statusEndpoint rid) = .error e →
      (status prim fall rid).primaryCalls = [statusEndpoint rid] ∧
      (status prim fall rid).fallbackCalls = [statusEndpoint rid] ∧
      (∀ d, fall (statusEndpoint rid) = .ok d → (status prim fall rid).result = .ok d) ∧
      (∀ e2, fall (statusEndpoint rid) = .error e2 →
        (status prim fall rid).result = .error e2)) := by
  constructor
  · intro d hd
    unfold status
    rw [hd]
    exact ⟨rfl, rfl⟩
  · intro e he
    rcases hf : fall (statusEndpoint rid) with ef | df
    · unfold status
      rw [he]
      simp only []
      rw [hf]
      refine ⟨rfl, rfl, ?_, ?_⟩
      · intro d hd
        exact absurd hd (by simp)
      · intro e2 he2
        injection he2 with h
        rw [← h]
    · unfold status
      rw [he]
      simp only []
      rw [hf]
      refine ⟨rfl, rfl, ?_, ?_⟩
      · intro d hd
        injection hd with h
        rw [← h]
      · intro e2 he2
        exact absurd he2 (by simp)

/-- Primary status client of the C8 witness: always a transport error. -/
def c8wPrim : String → Except String StatusDoc := fun _ => .error "connection failure"

/-- Fallback status client of the C8 witness: a document whose state field is
`FAILURE`, to be returned without interpretation. -/
def c8wFall : String → Except String StatusDoc := fun _ => .ok ⟨"FAILURE", "disk error", "1"⟩

/-- C8 witness: a failing primary GET falls back exactly once to the
secondary client and returns its document unchanged, even one whose state is
`FAILURE`. -/
theorem claim8_witness :
    (status c8wPrim c8wFall "1").result = .ok ⟨"FAILURE", "disk error", "1"⟩ ∧
    (status c8wPrim c8wFall "1").fallbackCalls = [statusEndpoint "1"] := by
  have h := (claim8_theorem c8wPrim c8wFall "1").2 "connection failure" rfl
  exact ⟨h.2.2.1 _ rfl, h.2.1⟩

/-- Arguments with an empty `node_config` dict and no optional maps. -/
def c2exArgs : SetupArgs :=
  ⟨"edge-cluster", "admin@example.com", "passw", "10.0.0.1", "255.255.255.0",
   .dict [], true, .pyNone, .pyNone, .pyNone, true, none,
   none, none, none, .pyNone, none, none, none, .pyNone⟩

/-- Environment whose version GET answers `5.0`; nothing else is reached. -/
def c2exEnv : SetupEnv :=
  ⟨.ok "5.0", fun _ => .error "unused", fun _ _ => .error "unused", fun _ _ => .error "unused"⟩

/-- C2 (counterexample): an empty `node_config` dict passes the parameter
validation, the version GET is issued (one network call), and the run then
dies with the uncaught `IndexError` of `list(node_config.values())[0]` — not
with a parameter error and not before network traffic. -/
theorem claim2_counterexample :
    (setup_cluster c2exArgs c2exEnv 1).result = .pyError indexErrMsg ∧
    (setup_cluster c2exArgs c2exEnv 1).versionGets = 1 := by
  decide

/-- C2 (amended): a `node_config` that is `None` or not a dict fails with the
parameter error before any network call; an EMPTY dict however passes
validation — the version GET is always issued, and the bootstrap POST is
never reached. -/
theorem claim2_theorem (a : SetupArgs) (env : SetupEnv) (pollFuel : ℕ) :
    ((a.node_config = .pyNone ∨ a.node_config = .notADict) →
      (setup_cluster a env pollFuel).result = .paramError nodeConfigMsg ∧
      (setup_cluster a env pollFuel).versionGets = 0 ∧
      (setup_cluster a env pollFuel).posts = 0 ∧
      (setup_cluster a env pollFuel).statusCalls = 0) ∧
    (a.node_config = .dict [] →
      a.dns_search_domains ≠ .notAList → a.dns_nameservers ≠ .notAList →
      a.ntp_servers ≠ .notAList →
      (setup_cluster a env pollFuel).versionGets = 1 ∧
      (setup_cluster a env pollFuel).posts = 0) := by
  constructor
  · intro h
    have hpre : preCheck a = some nodeConfigMsg := by
      rcases h with h | h <;> (unfold preCheck; rw [h])
    unfold setup_cluster
    rw [hpre]
    exact ⟨rfl, rfl, rfl, rfl⟩
  · intro hdict h1 h2 h3
    have hpre : preCheck a = none := preCheck_none_of a [] hdict h1 h2 h3
    unfold setup_cluster
    rw [hpre]
    simp only []
    rcases hv : env.versionResult with e | v
    · exact ⟨rfl, rfl⟩
    · simp only []
      rcases hb : buildConfig a v with out | cfg
      · exact ⟨rfl, rfl⟩
      · simp only []
        have hip : firstNodeIp a = none := by
          unfold firstNodeIp
          rw [hdict]
          rfl
        rw [hip]
        exact ⟨rfl, rfl⟩

/-- Arguments whose `node_config` is Python `None`. -/
def c2wArgs : SetupArgs :=
  ⟨"c", "a@x", "p", "10.0.0.1", "255.255.255.0", .pyNone, true, .pyNone, .pyNone, .pyNone,
   true, none, none, none, none, .pyNone, none, none, none, .pyNone⟩

/-- C2 witness: the amended theorem at a `None` node_config and at an empty
dict. -/
theorem claim2_witness :
    ((setup_cluster c2wArgs c2exEnv 1).result = .paramError nodeConfigMsg ∧
     (setup_cluster c2wArgs c2exEnv 1).versionGets = 0 ∧
     (setup_cluster c2wArgs c2exEnv 1).posts = 0 ∧
     (setup_cluster c2wArgs c2exEnv 1).statusCalls = 0) ∧
    ((setup_cluster c2exArgs c2exEnv 1).versionGets = 1 ∧
     (setup_cluster c2exArgs c2exEnv 1).posts = 0) :=
  ⟨(claim2_theorem c2wArgs c2exEnv 1).1 (Or.inl rfl),
   (claim2_theorem c2exArgs c2exEnv 1).2 rfl (by decide) (by decide) (by decide)⟩

/-- Arguments with one management node and an IPMI map naming a node that is
not in `node_config`, gateway and subnet mask supplied. -/
def c3exArgs : SetupArgs :=
  ⟨"phys-cluster", "admin@example.com", "passw", "10.0.0.1", "255.255.255.0",
   .dict [("node1", "10.0.0.2")], true, .pyNone, .pyNone, .pyNone, true, none,
   some "10.0.1.1", some "255.255.255.0", none, .dict [("ghost", "10.0.1.2")],
   none, none, none, .pyNone⟩

/-- Environment whose version GET answers `4.2`. -/
def c3exEnv : SetupEnv :=
  ⟨.ok "4.2", fun _ => .error "unused", fun _ _ => .error "unused", fun _ _ => .error "unused"⟩

/-- C3 (counterexample): the stray-IPMI-name parameter error is raised AFTER
the version GET — one network call has already been made when it fires, so it
is not "raised before any network call". -/
theorem claim3_counterexample :
    (setup_cluster c3exArgs c3exEnv 1).result = .paramError ipmiStrayMsg ∧
    (setup_cluster c3exArgs c3exEnv 1).versionGets = 1 := by
  decide

/-- C3 (amended): an active IPMI (resp. data) map naming a node absent from
`node_config` makes `setup_cluster` fail with the corresponding parameter
error before the bootstrap POST (zero POSTs), though after the version GET
(one network call). -/
theorem claim3_theorem (a : SetupArgs) (env : SetupEnv) (pollFuel : ℕ)
    (ncfg : List (String × String)) (hnc : a.node_config = .dict ncfg)
    (h1 : a.dns_search_domains ≠ .notAList) (h2 : a.dns_nameservers ≠ .notAList)
    (h3 : a.ntp_servers ≠ .notAList)
    (v : String) (q : ℚ) (hv : env.versionResult = .ok v) (hq : pyFloat3 v = some q) :
    (usingIpmiConfig a = true →
      (∃ p ∈ a.node_ipmi_ips.entries, ncfg.lookup p.1 = none) →
      (setup_cluster a env pollFuel).result = .paramError ipmiStrayMsg ∧
      (setup_cluster a env pollFuel).posts = 0 ∧
      (setup_cluster a env pollFuel).versionGets = 1) ∧
    (usingDataConfig a = true →
      (usingIpmiConfig a = true → ∀ p ∈ a.node_ipmi_ips.entries, (ncfg.lookup p.1).isSome = true) →
      (∃ p ∈ a.node_data_ips.entries, ncfg.lookup p.1 = none) →
      (setup_cluster a env pollFuel).result = .paramError dataStrayMsg ∧
      (setup_cluster a env pollFuel).posts = 0 ∧
      (setup_cluster a env pollFuel).versionGets = 1) := by
  have hpre : preCheck a = none := preCheck_none_of a ncfg hnc h1 h2 h3
  have hmk : ∀ k, ((mgmtNodeConfigs a).lookup k).isSome = ((ncfg.lookup k).isSome) := by
    intro k
    unfold mgmtNodeConfigs
    rw [hnc]
    exact map_lookup_isSome _ k ncfg
  constructor
  · rintro hui ⟨p, hp, hnone⟩
    have hmglook : (mgmtNodeConfigs a).lookup p.1 = none := by
      refine isSome_false_eq_none ?_
      rw [hmk p.1, hnone]
      rfl
    have hipass : ipmiPass a (mgmtNodeConfigs a) = .error ipmiStrayMsg := by
      unfold ipmiPass
      rw [if_pos hui]
      exact applyIpConfigs_stray _ _ _ _ _ _ _ ⟨p, hp, hmglook⟩
    have hb : buildConfig a v = .error (.paramError ipmiStrayMsg) := by
      unfold buildConfig
      rw [hq]
      simp only []
      rw [hipass]
    unfold setup_cluster
    rw [hpre]
    simp only []
    rw [hv]
    simp only []
    rw [hb]
    exact ⟨rfl, rfl, rfl⟩
  · rintro hud hipmiok ⟨p, hp, hnone⟩
    have hipassok : ∃ out, ipmiPass a (mgmtNodeConfigs a) = .ok out ∧
        ∀ k, (out.lookup k).isSome = (((mgmtNodeConfigs a).lookup k).isSome) := by
      unfold ipmiPass
      cases hui : usingIpmiConfig a
      case false =>
        rw [if_neg (by simp)]
        exact ⟨mgmtNodeConfigs a, rfl, fun k => rfl⟩
      case true =>
        rw [if_pos rfl]
        refine applyIpConfigs_ok _ _ _ _ _ _ _ ?_
        intro pe hpe
        rw [hmk pe.1]
        exact hipmiok hui pe hpe
    obtain ⟨cfgs1, hip1, hkeys1⟩ := hipassok
    have hdlook : cfgs1.lookup p.1 = none := by
      refine isSome_false_eq_none ?_
      rw [hkeys1, hmk, hnone]
      rfl
    have hdpass : dataPass a cfgs1 = .error dataStrayMsg := by
      unfold dataPass
      rw [if_pos hud]
      exact applyIpConfigs_stray _ _ _ _ _ _ _ ⟨p, hp, hdlook⟩
    have hb : buildConfig a v = .error (.paramError dataStrayMsg) := by
      unfold buildConfig
      rw [hq]
      simp only []
      rw [hip1]
      simp only []
      rw [hdpass]
    unfold setup_cluster
    rw [hpre]
    simp only []
    rw [hv]
    simp only []
    rw [hb]
    exact ⟨rfl, rfl, rfl⟩

/-- C3 witness: the amended theorem at a concrete stray IPMI node name. -/
theorem claim3_witness :
    (setup_cluster c3exArgs c3exEnv 1).result = .paramError ipmiStrayMsg ∧
    (setup_cluster c3exArgs c3exEnv 1).posts = 0 ∧
    (setup_cluster c3exArgs c3exEnv 1).versionGets = 1 :=
  (claim3_theorem c3exArgs c3exEnv 1 [("node1", "10.0.0.2")] rfl (by decide) (by decide)
      (by decide) "4.2" (mkRat 42 10) rfl (by decide)).1 rfl
    ⟨("ghost", "10.0.1.2"), by decide, by decide⟩

/-- C4: for every run whose version GET parses to `q`, the assembled document
carries the flat `ntpServers` list exactly when `q < 5`, and otherwise the
`{server: name}` record list under `ntpServerConfigs`; the 3-character prefix
of a version reported as exactly `5.0` parses to 5, which is NOT below 5, so
`5.0` selects the `ntpServerConfigs` schema. -/
theorem claim4_theorem (a : SetupArgs) (env : SetupEnv) (pollFuel : ℕ) (v : String) (q : ℚ)
    (cfg : BootstrapConfig) (hv : env.versionResult = .ok v) (hq : pyFloat3 v = some q)
    (hc : (setup_cluster a env pollFuel).config = some cfg) :
    ((q < 5 → cfg.ntp = .ntpServers (resolvedNtpServers a)) ∧
     (¬ q < 5 → cfg.ntp = .ntpServerConfigs ((resolvedNtpServers a).map fun s => ⟨s⟩))) ∧
    pyFloat3 "5.0" = some 5 := by
  obtain ⟨v2, hv2, hb⟩ := setup_cluster_config_inv a env pollFuel cfg hc
  rw [hv] at hv2
  injection hv2 with hveq
  subst hveq
  refine ⟨?_, by decide⟩
  unfold buildConfig at hb
  rw [hq] at hb
  simp only [] at hb
  rcases hip1 : ipmiPass a (mgmtNodeConfigs a) with m | cfgs1
  · rw [hip1] at hb
    simp at hb
  · rw [hip1] at hb
    simp only [] at hb
    rcases hdp : dataPass a cfgs1 with m | cfgs2
    · rw [hdp] at hb
      simp at hb
    · rw [hdp] at hb
      simp only [] at hb
      injection hb with hb2
      constructor
      · intro hlt
        rw [← hb2]
        show ntpChoice a q = .ntpServers (resolvedNtpServers a)
        unfold ntpChoice
        rw [if_pos hlt]
      · intro hge
        rw [← hb2]
        show ntpChoice a q = .ntpServerConfigs ((resolvedNtpServers a).map fun s => ⟨s⟩)
        unfold ntpChoice
        rw [if_neg hge]

/-- Arguments of the C4 witness: one node, all optional maps absent. -/
def c4wArgs : SetupArgs :=
  ⟨"edge", "admin@example.com", "pw", "10.0.0.1", "255.255.255.0",
   .dict [("node1", "10.0.0.2")], false, .pyNone, .pyNone, .pyNone, false, none,
   none, none, none, .pyNone, none, none, none, .pyNone⟩

/-- Environment of the C4 witness: the version GET answers exactly `5.0`. -/
def c4wEnv : SetupEnv :=
  ⟨.ok "5.0", fun _ => .error "unused", fun _ _ => .error "unused", fun _ _ => .error "unused"⟩

/-- The document the C4 witness run assembles. -/
def c4wCfg : BootstrapConfig :=
  ⟨false, "edge", ["8.8.8.8"], [], .ntpServerConfigs [⟨"pool.ntp.org"⟩],
   ⟨"pw", "admin@example.com", "admin"⟩,
   [("node1", ⟨⟨"255.255.255.0", "10.0.0.1", "10.0.0.2", none⟩, none, none⟩)]⟩

/-- C4 witness: a version of exactly `5.0` yields the `ntpServerConfigs`
record list in the assembled document. -/
theorem claim4_witness :
    (setup_cluster c4wArgs c4wEnv 1).config = some c4wCfg ∧
    c4wCfg.ntp = .ntpServerConfigs [⟨"pool.ntp.org"⟩] := by
  refine ⟨by decide, ?_⟩
  have h := ((claim4_theorem c4wArgs c4wEnv 1 "5.0" 5 c4wCfg rfl (by decide)
    (by decide)).1).2 (by norm_num)
  exact h.trans (by decide)

/-- C7: whenever the bootstrap POST fails with an already-bootstrapped error
(at any attempt `k ≤ 11`, after any number of refusals), `setup_cluster`
returns the benign "no change required" string — not an error — and performs
no status polling at all, even with `wait_for_completion` left true. -/
theorem claim7_theorem (a : SetupArgs) (env : SetupEnv) (pollFuel : ℕ)
    (hpre : preCheck a = none) (v : String) (hv : env.versionResult = .ok v)
    (cfg : BootstrapConfig) (hb : buildConfig a v = .ok cfg)
    (ip0 : String) (hip : firstNodeIp a = some ip0)
    (k : ℕ) (hk1 : 1 ≤ k) (hk11 : k ≤ 11)
    (href : ∀ j, 1 ≤ j → j < k → ∃ m, env.post j = .error m ∧ strContains m refusedNeedle = true)
    (m : String) (hm : env.post k = .error m) (hmr : strContains m refusedNeedle = false)
    (hma : strContains m alreadyNeedle = true) :
    (setup_cluster a env pollFuel).result = .benign benignMsg ∧
    (setup_cluster a env pollFuel).statusCalls = 0 ∧
    (setup_cluster a env pollFuel).pollSleeps = 0 := by
  have hloop : (bootstrapLoop env.post).result = .alreadyBootstrapped := by
    rw [bootstrapLoop_eq_go env.post k hk1 hk11 href]
    obtain ⟨f, hf⟩ : ∃ f, 13 - k = f + 1 := ⟨12 - k, by omega⟩
    rw [hf]
    simp only [bootstrapGo, hm]
    rw [if_neg (by simp [hmr]), if_pos hma]
  rw [setup_cluster_reach a env pollFuel hpre v hv cfg hb ip0 hip]
  unfold submitPhase
  rw [hloop]
  exact ⟨rfl, rfl, rfl⟩

/-- Arguments of the C7 witness. -/
def c7wArgs : SetupArgs :=
  ⟨"edge7", "a@x.com", "pw", "10.0.0.1", "255.255.255.0", .dict [("node1", "10.0.0.2")], true,
   .pyNone, .pyNone, .pyNone, true, none, none, none, none, .pyNone, none, none, none, .pyNone⟩

/-- Environment of the C7 witness: the first POST answers with the
already-bootstrapped error text. -/
def c7wEnv : SetupEnv :=
  ⟨.ok "5.0", fun _ => .error alreadyNeedle, fun _ _ => .error "unused",
   fun _ _ => .error "unused"⟩

/-- C7 witness: an already-bootstrapped first POST yields the benign result
with zero status polls despite `wait_for_completion = true`. -/
theorem claim7_witness :
    (setup_cluster c7wArgs c7wEnv 3).result = .benign benignMsg ∧
    (setup_cluster c7wArgs c7wEnv 3).statusCalls = 0 ∧
    (setup_cluster c7wArgs c7wEnv 3).pollSleeps = 0 :=
  claim7_theorem c7wArgs c7wEnv 3 rfl "5.0" rfl _ rfl "10.0.0.2" rfl 1 le_rfl (by omega)
    (fun j hj1 hj2 => absurd hj1 (by omega)) alreadyNeedle rfl (by decide) (by decide)

/-- C9: with a successful submission and `wait_for_completion = true`, the
polling loop waits through consecutive `IN_PROGRESS` polls; a `FAILURE` or
`FAILED` poll makes the call fail with a `RubrikException` carrying exactly
the server-provided message, and any other state is returned as the final
result after exactly as many polling delays as `IN_PROGRESS` polls seen. -/
theorem claim9_theorem (a : SetupArgs) (env : SetupEnv) (pollFuel : ℕ)
    (hpre : preCheck a = none) (v : String) (hv : env.versionResult = .ok v)
    (cfg : BootstrapConfig) (hb : buildConfig a v = .ok cfg)
    (ip0 : String) (hip : firstNodeIp a = some ip0)
    (hwait : a.wait_for_completion = true)
    (resp : PostResponse) (hloop : (bootstrapLoop env.post).result = .success resp)
    (n : ℕ) (hfuel : n < pollFuel)
    (hprog : ∀ j, j < n → ∃ dj,
      (status (env.statPrim j) (env.statFall j) resp.id).result = .ok dj ∧
      dj.status = "IN_PROGRESS")
    (d : StatusDoc) (hd : (status (env.statPrim n) (env.statFall n) resp.id).result = .ok d) :
    ((d.status = "FAILURE" ∨ d.status = "FAILED") →
      (setup_cluster a env pollFuel).result = .rubrikError d.message) ∧
    (d.status ≠ "IN_PROGRESS" → d.status ≠ "FAILURE" → d.status ≠ "FAILED" →
      (setup_cluster a env pollFuel).result = .finalStatus d ∧
      (setup_cluster a env pollFuel).pollSleeps = n) := by
  have hrun : setup_cluster a env pollFuel = submitPhase a env pollFuel cfg :=
    setup_cluster_reach a env pollFuel hpre v hv cfg hb ip0 hip
  obtain ⟨f2, hf2, hf2pos⟩ : ∃ f2, pollFuel = f2 + n ∧ 1 ≤ f2 :=
    ⟨pollFuel - n, by omega, by omega⟩
  have hpl : pollLoop env resp.id pollFuel = pollGo env resp.id f2 n := by
    unfold pollLoop
    rw [hf2]
    rw [pollGo_skip env resp.id n f2 0 (fun j hj1 hj2 => hprog j (by omega))]
    rw [Nat.zero_add]
  obtain ⟨f3, hf3⟩ : ∃ f3, f2 = f3 + 1 := ⟨f2 - 1, by omega⟩
  constructor
  · intro hds
    have hfail : pollLoop env resp.id pollFuel =
        ⟨.rubrikError d.message, n + 1, n⟩ := by
      rw [hpl, hf3]
      simp only [pollGo, hd]
      rw [if_neg (by rcases hds with h | h <;> simp [h]), if_pos hds]
    rw [hrun]
    unfold submitPhase
    rw [hloop]
    simp only []
    rw [if_pos hwait, hfail]
  · intro hn1 hn2 hn3
    have hdone : pollLoop env resp.id pollFuel = ⟨.finalStatus d, n + 1, n⟩ := by
      rw [hpl, hf3]
      simp only [pollGo, hd]
      rw [if_neg hn1, if_neg (by simp [hn2, hn3])]
    rw [hrun]
    unfold submitPhase
    rw [hloop]
    simp only []
    rw [if_pos hwait, hdone]
    exact ⟨rfl, rfl⟩

/-- Arguments of the C9 witness. -/
def c9wArgs : SetupArgs :=
  ⟨"edge9", "a@x.com", "pw", "10.0.0.1", "255.255.255.0", .dict [("node1", "10.0.0.2")], true,
   .pyNone, .pyNone, .pyNone, true, none, none, none, none, .pyNone, none, none, none, .pyNone⟩

/-- Environment of the C9 witness: immediate submission success, then the
poll sequence `IN_PROGRESS, IN_PROGRESS, SUCCESS`. -/
def c9wEnv : SetupEnv :=
  ⟨.ok "5.0", fun _ => .ok ⟨"req9"⟩,
   fun i _ => .ok (if i < 2 then ⟨"IN_PROGRESS", "", "req9"⟩ else ⟨"SUCCESS", "ok", "req9"⟩),
   fun _ _ => .error "unused"⟩

/-- C9 witness: the poll sequence `IN_PROGRESS, IN_PROGRESS, SUCCESS` returns
the `SUCCESS` document after exactly two polling delays. -/
theorem claim9_witness :
    (setup_cluster c9wArgs c9wEnv 5).result = .finalStatus ⟨"SUCCESS", "ok", "req9"⟩ ∧
    (setup_cluster c9wArgs c9wEnv 5).pollSleeps = 2 :=
  (claim9_theorem c9wArgs c9wEnv 5 rfl "5.0" rfl _ rfl "10.0.0.2" rfl rfl ⟨"req9"⟩ (by decide)
    2 (by omega)
    (fun j hj => ⟨⟨"IN_PROGRESS", "", "req9"⟩, by unfold status; simp [c9wEnv, hj], rfl⟩)
    ⟨"SUCCESS", "ok", "req9"⟩ (by decide)).2 (by decide) (by decide) (by decide)

/-- Arguments of the C1 counterexample run (wait_for_completion true). -/
def c1exArgs : SetupArgs :=
  ⟨"cc1", "a@x.com", "pw", "10.0.0.1", "255.255.255.0", .dict [("node1", "10.0.0.2")], true,
   .pyNone, .pyNone, .pyNone, true, none, none, none, none, .pyNone, none, none, none, .pyNone⟩

/-- Environment of the C1 counterexample: the POST is refused on attempts 1
through 11 and would succeed on a 12th. -/
def c1exEnv : SetupEnv :=
  ⟨.ok "5.0", fun j => if j ≤ 11 then .error refusedNeedle else .ok ⟨"req1"⟩,
   fun _ _ => .error "unused", fun _ _ => .error "unused"⟩

/-- C1 (counterexample): with connection-refused on each of the first 11
attempts and success available on the 12th, the run does NOT succeed: after
the 11th refusal the counter reaches 12 and the loop raises the fatal
connection error after 11 POSTs and 11 backoff sleeps — the 12th POST is
never attempted. -/
theorem claim1_counterexample :
    (setup_cluster c1exArgs c1exEnv 1).result = .apiCallError exhaustMsg ∧
    (setup_cluster c1exArgs c1exEnv 1).posts = 11 ∧
    (setup_cluster c1exArgs c1exEnv 1).retrySleeps = 11 := by
  decide

/-- C1 (amended): connection-refused on each of the first 10 attempts
followed by success on the 11th yields an overall submission success with
exactly 10 backoff delays observed; and in no run whatsoever is a 12th
submission attempt made (at most 11 total POSTs). -/
theorem claim1_theorem (a : SetupArgs) (env : SetupEnv) (pollFuel : ℕ)
    (hpre : preCheck a = none) (v : String) (hv : env.versionResult = .ok v)
    (cfg : BootstrapConfig) (hb : buildConfig a v = .ok cfg)
    (ip0 : String) (hip : firstNodeIp a = some ip0)
    (hwait : a.wait_for_completion = false)
    (href : ∀ j, 1 ≤ j → j ≤ 10 → ∃ m, env.post j = .error m ∧ strContains m refusedNeedle = true)
    (resp : PostResponse) (h11 : env.post 11 = .ok resp) :
    ((setup_cluster a env pollFuel).result = .submission resp ∧
     (setup_cluster a env pollFuel).retrySleeps = 10 ∧
     (setup_cluster a env pollFuel).posts = 11) ∧
    (∀ (a2 : SetupArgs) (env2 : SetupEnv) (fuel2 : ℕ),
      (setup_cluster a2 env2 fuel2).posts ≤ 11) := by
  constructor
  · have hloop : bootstrapLoop env.post = ⟨.success resp, 11, 10⟩ := by
      rw [bootstrapLoop_eq_go env.post 11 (by omega) (by omega)
        (fun j hj1 hj2 => href j hj1 (by omega))]
      show bootstrapGo env.post 2 11 = _
      simp only [bootstrapGo, h11]
    rw [setup_cluster_reach a env pollFuel hpre v hv cfg hb ip0 hip]
    unfold submitPhase
    rw [hloop]
    simp only []
    rw [if_neg (by simp [hwait])]
    exact ⟨rfl, rfl, rfl⟩
  · intro a2 env2 fuel2
    unfold setup_cluster
    rcases hpre2 : preCheck a2 with - | msg
    · simp only []
      rcases hv2 : env2.versionResult with e | v2
      · exact Nat.zero_le 11
      · simp only []
        rcases hb2 : buildConfig a2 v2 with o | c2
        · exact Nat.zero_le 11
        · simp only []
          rcases hip2 : firstNodeIp a2 with - | i0
          · exact Nat.zero_le 11
          · exact submitPhase_posts_le a2 env2 fuel2 c2
    · exact Nat.zero_le 11

/-- Arguments of the C1 witness run (wait_for_completion false). -/
def c1wArgs : SetupArgs :=
  ⟨"cc1", "a@x.com", "pw", "10.0.0.1", "255.255.255.0", .dict [("node1", "10.0.0.2")], true,
   .pyNone, .pyNone, .pyNone, false, none, none, none, none, .pyNone, none, none, none, .pyNone⟩

/-- Environment of the C1 witness: refused on attempts 1-10, success on 11. -/
def c1wEnv : SetupEnv :=
  ⟨.ok "5.0", fun j => if j ≤ 10 then .error refusedNeedle else .ok ⟨"req1"⟩,
   fun _ _ => .error "unused", fun _ _ => .error "unused"⟩

/-- C1 witness: ten refusals then success on the 11th attempt succeed with
exactly 10 backoff delays and 11 POSTs. -/
theorem claim1_witness :
    (setup_cluster c1wArgs c1wEnv 1).result = .submission ⟨"req1"⟩ ∧
    (setup_cluster c1wArgs c1wEnv 1).retrySleeps = 10 ∧
    (setup_cluster c1wArgs c1wEnv 1).posts = 11 :=
  (claim1_theorem c1wArgs c1wEnv 1 rfl "5.0" rfl _ rfl "10.0.0.2" rfl rfl
    (fun j hj1 hj2 => ⟨refusedNeedle, by simp [c1wEnv, hj2], by decide⟩)
    ⟨"req1"⟩ (by decide)).1

/-- The argument vector with the IPMI address map removed (`None`). -/
def dropIpmiIps (a : SetupArgs) : SetupArgs :=
  ⟨a.cluster_name, a.admin_email, a.admin_password, a.management_gateway,
   a.management_subnet_mask, a.node_config, a.enable_encryption, a.dns_search_domains,
   a.dns_nameservers, a.ntp_servers, a.wait_for_completion, a.management_vlan,
   a.ipmi_gateway, a.ipmi_subnet_mask, a.ipmi_vlan, .pyNone, a.data_gateway,
   a.data_subnet_mask, a.data_vlan, a.node_data_ips⟩

/-- The argument vector with the data address map removed (`None`). -/
def dropDataIps (a : SetupArgs) : SetupArgs :=
  ⟨a.cluster_name, a.admin_email, a.admin_password, a.management_gateway,
   a.management_subnet_mask, a.node_config, a.enable_encryption, a.dns_search_domains,
   a.dns_nameservers, a.ntp_servers, a.wait_for_completion, a.management_vlan,
   a.ipmi_gateway, a.ipmi_subnet_mask, a.ipmi_vlan, a.node_ipmi_ips, a.data_gateway,
   a.data_subnet_mask, a.data_vlan, .pyNone⟩

/-- C10: when `node_ipmi_ips` is a dict but its gateway or subnet mask is
absent (and likewise for `node_data_ips`), the run is indistinguishable from
one with the map entirely absent — the addresses are silently dropped, no
error is raised, the stray-name cross-validation is skipped — and no
`ipmiIpConfig` (resp. `dataIpConfig`) entry appears in the assembled
document. -/
theorem claim10_theorem (a : SetupArgs) (env : SetupEnv) (pollFuel : ℕ) :
    (∀ l, a.node_ipmi_ips = .dict l → (a.ipmi_gateway = none ∨ a.ipmi_subnet_mask = none) →
      setup_cluster a env pollFuel = setup_cluster (dropIpmiIps a) env pollFuel ∧
      (∀ cfg, (setup_cluster a env pollFuel).config = some cfg →
        ∀ p ∈ cfg.nodeConfigs, p.2.ipmiIpConfig = none)) ∧
    (∀ l, a.node_data_ips = .dict l → (a.data_gateway = none ∨ a.data_subnet_mask = none) →
      setup_cluster a env pollFuel = setup_cluster (dropDataIps a) env pollFuel ∧
      (∀ cfg, (setup_cluster a env pollFuel).config = some cfg →
        ∀ p ∈ cfg.nodeConfigs, p.2.dataIpConfig = none)) := by
  constructor
  · intro l hl hgw
    have h1 : usingIpmiConfig a = false := by
      rcases hgw with h | h <;> simp [usingIpmiConfig, h]
    have h2 : usingIpmiConfig (dropIpmiIps a) = false := by
      simp [usingIpmiConfig, dropIpmiIps, PyDictArg.isDict]
    have hbc : ∀ w, buildConfig (dropIpmiIps a) w = buildConfig a w := by
      intro w
      unfold buildConfig
      rcases hq : pyFloat3 w with - | q
      · rfl
      · simp only []
        have hipL : ipmiPass (dropIpmiIps a) (mgmtNodeConfigs (dropIpmiIps a)) =
            .ok (mgmtNodeConfigs (dropIpmiIps a)) := by
          unfold ipmiPass
          rw [if_neg (by simp [h2])]
        have hipR : ipmiPass a (mgmtNodeConfigs a) = .ok (mgmtNodeConfigs a) := by
          unfold ipmiPass
          rw [if_neg (by simp [h1])]
        rw [hipL, hipR]
        rfl
    constructor
    · unfold setup_cluster
      have hpc : preCheck (dropIpmiIps a) = preCheck a := rfl
      rw [hpc]
      rcases hpre : preCheck a with - | msg
      · simp only []
        rcases hv : env.versionResult with e | v
        · rfl
        · simp only []
          rw [hbc v]
          rcases hb : buildConfig a v with o | c
          · rfl
          · simp only []
            rfl
      · rfl
    · intro cfg hc
      obtain ⟨v, hv, hb⟩ := setup_cluster_config_inv a env pollFuel cfg hc
      unfold buildConfig at hb
      rcases hq : pyFloat3 v with - | q
      · rw [hq] at hb
        simp at hb
      · rw [hq] at hb
        simp only [] at hb
        have hipmi : ipmiPass a (mgmtNodeConfigs a) = .ok (mgmtNodeConfigs a) := by
          unfold ipmiPass
          rw [if_neg (by simp [h1])]
        rw [hipmi] at hb
        simp only [] at hb
        rcases hdp : dataPass a (mgmtNodeConfigs a) with m | cfgs2
        · rw [hdp] at hb
          simp at hb
        · rw [hdp] at hb
          simp only [] at hb
          injection hb with hb2
          intro p hp
          rw [← hb2] at hp
          have hp2 : p ∈ cfgs2 := hp
          have hpres : ∀ p2 ∈ cfgs2, p2.2.ipmiIpConfig = none := by
            unfold dataPass at hdp
            by_cases hud : usingDataConfig a = true
            · rw [if_pos hud] at hdp
              exact applyIpConfigs_preserves (fun e => e.ipmiIpConfig = none) setData
                dataStrayMsg _ _ _ (fun e c he => he) _ _ _ hdp
                (fun p3 hp3 => (mgmtNodeConfigs_fresh a p3 hp3).1)
            · rw [if_neg hud] at hdp
              injection hdp with hd2
              rw [← hd2]
              exact fun p3 hp3 => (mgmtNodeConfigs_fresh a p3 hp3).1
          exact hpres p hp2
  · intro l hl hgw
    have h1 : usingDataConfig a = false := by
      rcases hgw with h | h <;> simp [usingDataConfig, h]
    have h2 : usingDataConfig (dropDataIps a) = false := by
      simp [usingDataConfig, dropDataIps, PyDictArg.isDict]
    have hbc : ∀ w, buildConfig (dropDataIps a) w = buildConfig a w := by
      intro w
      unfold buildConfig
      rcases hq : pyFloat3 w with - | q
      · rfl
      · simp only []
        have hipd : ipmiPass (dropDataIps a) (mgmtNodeConfigs (dropDataIps a)) =
            ipmiPass a (mgmtNodeConfigs a) := rfl
        rw [hipd]
        rcases hipr : ipmiPass a (mgmtNodeConfigs a) with m | cfgs1
        · rfl
        · simp only []
          have hd1 : dataPass (dropDataIps a) cfgs1 = .ok cfgs1 := by
            unfold dataPass
            rw [if_neg (by simp [h2])]
          have hd2 : dataPass a cfgs1 = .ok cfgs1 := by
            unfold dataPass
            rw [if_neg (by simp [h1])]
          rw [hd1, hd2]
          rfl
    constructor
    · unfold setup_cluster
      have hpc : preCheck (dropDataIps a) = preCheck a := rfl
      rw [hpc]
      rcases hpre : preCheck a with - | msg
      · simp only []
        rcases hv : env.versionResult with e | v
        · rfl
        · simp only []
          rw [hbc v]
          rcases hb : buildConfig a v with o | c
          · rfl
          · simp only []
            rfl
      · rfl
    · intro cfg hc
      obtain ⟨v, hv, hb⟩ := setup_cluster_config_inv a env pollFuel cfg hc
      unfold buildConfig at hb
      rcases hq : pyFloat3 v with - | q
      · rw [hq] at hb
        simp at hb
      · rw [hq] at hb
        simp only [] at hb
        rcases hipr : ipmiPass a (mgmtNodeConfigs a) with m | cfgs1
        · rw [hipr] at hb
          simp at hb
        · rw [hipr] at hb
          simp only [] at hb
          have hdp : dataPass a cfgs1 = .ok cfgs1 := by
            unfold dataPass
            rw [if_neg (by simp [h1])]
          rw [hdp] at hb
          simp only [] at hb
          injection hb with hb2
          intro p hp
          rw [← hb2] at hp
          have hp2 : p ∈ cfgs1 := hp
          have hpres : ∀ p2 ∈ cfgs1, p2.2.dataIpConfig = none := by
            unfold ipmiPass at hipr
            by_cases hui : usingIpmiConfig a = true
            · rw [if_pos hui] at hipr
              exact applyIpConfigs_preserves (fun e => e.dataIpConfig = none) setIpmi
                ipmiStrayMsg _ _ _ (fun e c he => he) _ _ _ hipr
                (fun p3 hp3 => (mgmtNodeConfigs_fresh a p3 hp3).2)
            · rw [if_neg hui] at hipr
              injection hipr with hi2
              rw [← hi2]
              exact fun p3 hp3 => (mgmtNodeConfigs_fresh a p3 hp3).2
          exact hpres p hp2

/-- Arguments of the C10 witness: an IPMI map naming even a stray node, but
no IPMI gateway or subnet mask. -/
def c10wArgs : SetupArgs :=
  ⟨"c10", "a@x.com", "pw", "10.0.0.1", "255.255.255.0", .dict [("node1", "10.0.0.2")], true,
   .pyNone, .pyNone, .pyNone, true, none, none, none, none, .dict [("ghost", "10.0.1.9")],
   none, none, none, .pyNone⟩

/-- Environment of the C10 witness. -/
def c10wEnv : SetupEnv :=
  ⟨.ok "5.0", fun _ => .error "unused", fun _ _ => .error "unused", fun _ _ => .error "unused"⟩

/-- C10 witness: with the gateway missing, the run equals the run with the
IPMI map absent — the stray name is never validated and no error is raised. -/
theorem claim10_witness :
    setup_cluster c10wArgs c10wEnv 1 = setup_cluster (dropIpmiIps c10wArgs) c10wEnv 1 :=
  ((claim10_theorem c10wArgs c10wEnv 1).1 [("ghost", "10.0.1.9")] rfl (Or.inl rfl)).1

end RubrikCdm
